import Mathlib

/-!
A verification development for the IKP core (`src/core/ikp_core.py`): the value
model, string interpolation, the AST-based safe expression evaluator, the
structured/legacy action interpreter and the document validator, embedded
shallowly in Lean.

Modelling conventions:
* Python objects reaching the core are modelled by `PyTerm` (strings, ints,
  floats, booleans, `None`, lists, dicts).  Per the documented value-model
  boundary, host snapshots hand the core already-narrowed primitive values, so
  the duck-typed accessor probing of `_extract_var_value` (callables, `.get`
  objects) collapses to the identity on `PyTerm`.
* Python floats are idealised as exact rationals, represented by an
  unnormalised numerator/denominator pair (`PyFloat`) so that every operation
  is plain integer arithmetic and reduces inside the kernel; `str()` of a
  float is rendered by exact decimal expansion, which agrees with Python on
  every value the claims touch.  Non-finite floats, underscored numerals and
  string escape sequences are outside the model.
* `ast.parse` is modelled by an executable tokenizer and recursive-descent
  parser (`pyParse`) for Python's expression grammar restricted to the
  constructs the repository's expressions use (literals, names, unary and
  binary operators, comparisons, boolean operators, lists/tuples/parentheses,
  calls, attribute access, subscripting); a construct the mini-parser does not
  cover makes `pyParse` fail, which `safe_eval` reports as a parse error
  exactly as the original reports a `SyntaxError`.
* Exceptions are modelled with `Except String`; a Python `try/except` becomes
  a `match` on the guarded computation.  Error message texts are abbreviated.
* Functions whose recursion is not structural (the action interpreter, which
  recurses through dictionary lookups, and the scanners) take an explicit fuel
  argument whose initial budget strictly exceeds the recursion depth, keeping
  them executable by `rfl`/`decide`.
-/

/-- A Python float, idealised as an exact rational: an unnormalised
numerator/denominator pair with a positive denominator. -/
structure PyFloat where
  num : Int
  den : Nat
deriving DecidableEq

/-- Embed an integer as a float (`float(n)`). -/
def PyFloat.ofInt (n : Int) : PyFloat := ⟨n, 1⟩

/-- Semantic equality of two float values (cross multiplication). -/
def fEq (a b : PyFloat) : Bool := a.num * (b.den : Int) = b.num * (a.den : Int)

/-- Semantic strict order on float values (denominators are positive). -/
def fLt (a b : PyFloat) : Bool := a.num * (b.den : Int) < b.num * (a.den : Int)

/-- Semantic non-strict order on float values. -/
def fLe (a b : PyFloat) : Bool := a.num * (b.den : Int) ≤ b.num * (a.den : Int)

/-- Exact float addition. -/
def fAdd (a b : PyFloat) : PyFloat :=
  ⟨a.num * (b.den : Int) + b.num * (a.den : Int), a.den * b.den⟩

/-- Exact float subtraction. -/
def fSub (a b : PyFloat) : PyFloat :=
  ⟨a.num * (b.den : Int) - b.num * (a.den : Int), a.den * b.den⟩

/-- Exact float multiplication. -/
def fMul (a b : PyFloat) : PyFloat := ⟨a.num * b.num, a.den * b.den⟩

/-- Exact float division (callers guard against a zero divisor); the sign is
moved into the numerator so the denominator stays positive. -/
def fDiv (a b : PyFloat) : PyFloat :=
  ⟨a.num * (b.den : Int) * b.num.sign, a.den * b.num.natAbs⟩

/-- Float negation. -/
def fNeg (a : PyFloat) : PyFloat := ⟨-a.num, a.den⟩

/-- Whether the float value is zero. -/
def fIsZero (a : PyFloat) : Bool := a.num = 0

/-- Mathematical floor of a float value (Python `math.floor` / `//` base). -/
def fFloor (a : PyFloat) : Int := Int.fdiv a.num (a.den : Int)

/-- Natural power of a float value. -/
def fPow (a : PyFloat) (n : Nat) : PyFloat := ⟨a.num ^ n, a.den ^ n⟩

/-- Scale by a power of ten (used by the float literal parser). -/
def fScale10 (a : PyFloat) (e : Int) : PyFloat :=
  if e ≥ 0 then ⟨a.num * (10 : Int) ^ e.toNat, a.den⟩
  else ⟨a.num, a.den * 10 ^ (-e).toNat⟩

/-- Python floored remainder on float values: `x - y * floor(x / y)`. -/
def fMod (a b : PyFloat) : PyFloat :=
  fSub a (fMul b (PyFloat.ofInt (fFloor (fDiv a b))))

mutual
/-- A Python runtime value as the IKP core sees one: string, int, float,
bool, `None`, list, or string-keyed dict. -/
inductive PyTerm where
  | vstr (s : String)
  | vint (n : Int)
  | vfloat (q : PyFloat)
  | vbool (b : Bool)
  | vnone
  | vlist (xs : PyList)
  | vdict (es : PyDict)
/-- A Python list of values (spelled out so recursion stays structural). -/
inductive PyList where
  | nil
  | cons (hd : PyTerm) (tl : PyList)
/-- A Python string-keyed dict, as an association list. -/
inductive PyDict where
  | nil
  | cons (key : String) (val : PyTerm) (tl : PyDict)
end

mutual
/-- Structural size of a value (fuel budget for non-structural recursion). -/
def pySize : PyTerm → Nat
  | .vlist xs => 1 + pySizeL xs
  | .vdict es => 1 + pySizeD es
  | _ => 1
/-- Structural size of a list of values. -/
def pySizeL : PyList → Nat
  | .nil => 0
  | .cons h t => 1 + pySize h + pySizeL t
/-- Structural size of a dict. -/
def pySizeD : PyDict → Nat
  | .nil => 0
  | .cons _ v t => 1 + pySize v + pySizeD t
end

/-- Python `d.get(key)` on an action dict (keys assumed unique):
the first binding of `key`, or `none` when the key is absent. -/
def dictGet : PyDict → String → Option PyTerm
  | .nil, _ => none
  | .cons k v rest, key => if k = key then some v else dictGet rest key

/-- A variable snapshot (`vars_map`): a mapping from names to values. -/
abbrev Snap : Type := List (String × PyTerm)

/-- Python `vars_map.get(key)` on a snapshot. -/
def snapGet : Snap → String → Option PyTerm
  | [], _ => none
  | (k, v) :: rest, key => if k = key then some v else snapGet rest key

/-- Python truthiness (`bool(v)`): `None`, `False`, zero, the empty string,
the empty list and the empty dict are falsy, everything else truthy. -/
def pyTruthy : PyTerm → Bool
  | .vstr s => !(s = "")
  | .vint n => !(n = 0)
  | .vfloat q => !(fIsZero q)
  | .vbool b => b
  | .vnone => false
  | .vlist .nil => false
  | .vlist _ => true
  | .vdict .nil => false
  | .vdict _ => true

/-- Digits of a decimal numeral as a natural number. -/
def digitsToNat (cs : List Char) : Nat :=
  cs.foldl (fun acc c => acc * 10 + (c.toNat - 48)) 0

/-- Python `int(s)` on a string: optional surrounding whitespace, an optional
sign, then one or more decimal digits (underscored numerals are not
modelled).  `none` models the `ValueError`. -/
def pyIntParse (s : String) : Option Int :=
  let cs := (s.data.dropWhile Char.isWhitespace).reverse.dropWhile Char.isWhitespace |>.reverse
  let (neg, ds) : Bool × List Char :=
    match cs with
    | '-' :: rest => (true, rest)
    | '+' :: rest => (false, rest)
    | rest => (false, rest)
  if !ds.isEmpty ∧ ds.all Char.isDigit then
    some (if neg then -(digitsToNat ds : Int) else (digitsToNat ds : Int))
  else none

/-- Python `float(s)` on a string: optional surrounding whitespace, an
optional sign, a mantissa (`digits`, `digits.digits`, `digits.` or
`.digits`) and an optional exponent part.  `inf`/`nan` and underscored
numerals are outside the model.  `none` models the `ValueError`. -/
def pyFloatParse (s : String) : Option PyFloat :=
  let cs := (s.data.dropWhile Char.isWhitespace).reverse.dropWhile Char.isWhitespace |>.reverse
  let (neg, cs1) : Bool × List Char :=
    match cs with
    | '-' :: rest => (true, rest)
    | '+' :: rest => (false, rest)
    | rest => (false, rest)
  let ip := cs1.takeWhile Char.isDigit
  let cs2 := cs1.drop ip.length
  let (hasDot, fp, cs3) : Bool × List Char × List Char :=
    match cs2 with
    | '.' :: rest => (true, rest.takeWhile Char.isDigit, rest.drop (rest.takeWhile Char.isDigit).length)
    | rest => (false, [], rest)
  if ip.isEmpty ∧ fp.isEmpty then none
  else
    let mant : PyFloat := ⟨(digitsToNat ip : Int) * (10 : Int) ^ fp.length + (digitsToNat fp : Int), 10 ^ fp.length⟩
    let mant := if neg then fNeg mant else mant
    let _ := hasDot
    match cs3 with
    | [] => some mant
    | e :: rest =>
      if e = 'e' ∨ e = 'E' then
        let (eneg, eds) : Bool × List Char :=
          match rest with
          | '-' :: r => (true, r)
          | '+' :: r => (false, r)
          | r => (false, r)
        if !eds.isEmpty ∧ eds.all Char.isDigit then
          some (fScale10 mant (if eneg then -(digitsToNat eds : Int) else (digitsToNat eds : Int)))
        else none
      else none

/-- Decimal digits of the fractional part `q ∈ [0, 1)` of a float, by
repeated multiplication by ten; the fuel bounds the digits emitted (64
exceeds any double's exact decimal expansion). -/
def fracDigits : Nat → PyFloat → String
  | 0, _ => ""
  | f + 1, q =>
    if fIsZero q then ""
    else
      let d : Int := Int.fdiv (q.num * 10) (q.den : Int)
      String.mk [Char.ofNat (48 + d.toNat)] ++
        fracDigits f ⟨q.num * 10 - d * (q.den : Int), q.den⟩

/-- Python `str()`/`repr()` of a float, for decimally-representable values:
sign, integer part, a point, and the fractional digits (`"5.0"`, `"-2.5"`). -/
def floatStr (q : PyFloat) : String :=
  let sign := if q.num < 0 then "-" else ""
  let a : PyFloat := ⟨(q.num.natAbs : Int), q.den⟩
  let ip : Int := fFloor a
  let fr : PyFloat := ⟨a.num - ip * (a.den : Int), a.den⟩
  sign ++ toString ip ++ "." ++ (if fIsZero fr then "0" else fracDigits 64 fr)

mutual
/-- Python `repr(v)`, to the extent `str()` of a container needs it: strings
are quoted, other scalars render as `str()` does. -/
def pyRepr : PyTerm → String
  | .vstr s => "'" ++ s ++ "'"
  | .vint n => toString n
  | .vfloat q => floatStr q
  | .vbool b => if b then "True" else "False"
  | .vnone => "None"
  | .vlist xs => "[" ++ pyReprL xs ++ "]"
  | .vdict es => "\x7b" ++ pyReprD es ++ "\x7d"
/-- Comma-joined `repr`s of a list's elements. -/
def pyReprL : PyList → String
  | .nil => ""
  | .cons h .nil => pyRepr h
  | .cons h t => pyRepr h ++ ", " ++ pyReprL t
/-- Comma-joined `repr`s of a dict's entries. -/
def pyReprD : PyDict → String
  | .nil => ""
  | .cons k v .nil => "'" ++ k ++ "': " ++ pyRepr v
  | .cons k v t => "'" ++ k ++ "': " ++ pyRepr v ++ ", " ++ pyReprD t
end

/-- Python `str(v)`: identity on strings, `"True"`/`"False"` on booleans,
decimal text on numbers, `repr`-based rendering on containers. -/
def pyStr : PyTerm → String
  | .vstr s => s
  | v => pyRepr v

example : pyStr (.vint (-5)) = "-5" := by decide
example : pyStr (.vfloat (.ofInt (-5))) = "-5.0" := by decide
example : pyStr (.vfloat ⟨25, 10⟩) = "2.5" := by decide
example : pyStr (.vbool true) = "True" := by decide
example : pyIntParse "1e3" = none := by decide
example : pyIntParse " -42 " = some (-42) := by decide
example : pyFloatParse "2.5" = some ⟨25, 10⟩ := by decide
example : pyFloatParse "." = none := by decide
example : pyFloatParse "abc" = none := by decide
example : (pyFloatParse "1e3").map (fun q => fEq q (.ofInt 1000)) = some true := by decide

/-- Character class of the interpolation pattern `[a-zA-Z0-9_]`. -/
def isIdentChar (c : Char) : Bool := c.isAlphanum || c = '_'

/-- The replacement `repl` computes for one `$\x7bname\x7d` token: look the
name up in the snapshot; a missing key or a `None` value substitutes the
empty string, anything else its `str()` form. -/
def tokenRepl (nm : String) (snap : Snap) : String :=
  match snapGet snap nm with
  | none => ""
  | some .vnone => ""
  | some v => pyStr v

/-- The scan `_VAR_PATTERN.sub(repl, text)` performs: leftmost, non
overlapping occurrences of `$` `\x7b` ident-run `\x7d` are replaced, and the
scan resumes after the closing brace; at a position where the pattern does
not match, the character is kept and the scan moves on by one.  The fuel
(initially the text's length plus one) only pads termination: each step
consumes at least one character. -/
def interpSub : Nat → List Char → Snap → List Char
  | _, [], _ => []
  | 0, cs, _ => cs
  | f + 1, c :: cs, snap =>
    if c = '$' then
      match cs with
      | [] => [c]
      | d :: rest =>
        if d = '\x7b' then
          let ids := rest.takeWhile isIdentChar
          if ids.isEmpty then c :: interpSub f cs snap
          else
            match rest.drop ids.length with
            | e :: rest2 =>
              if e = '\x7d' then
                (tokenRepl (String.mk ids) snap).data ++ interpSub f rest2 snap
              else c :: interpSub f cs snap
            | [] => c :: interpSub f cs snap
        else c :: interpSub f cs snap
    else c :: interpSub f cs snap

/-- `interpolate(text, vars_map)`: non-string inputs pass through unchanged;
a string has each `$\x7bident\x7d` token substituted per `tokenRepl`. -/
def interpolate (t : PyTerm) (snap : Snap) : PyTerm :=
  match t with
  | .vstr s => .vstr (String.mk (interpSub (s.data.length + 1) s.data snap))
  | v => v

/-- Python `s.strip()` (whitespace from both ends), on the character list. -/
def strTrim (s : String) : String :=
  String.mk ((s.data.dropWhile Char.isWhitespace).reverse.dropWhile Char.isWhitespace |>.reverse)

/-- Python `s.lower()` (ASCII case folding suffices for the model). -/
def strLower (s : String) : String := String.mk (s.data.map Char.toLower)

/-- Python `c in s` membership for a single character. -/
def strHasChar (s : String) (c : Char) : Bool := s.data.any (fun d => d = c)

/-- The string-to-value coercion `safe_eval` applies to each snapshot value
(`ikp_core.py` lines 177-196): trimmed lowercase `"true"`/`"false"` become
booleans; otherwise a string containing `.` is tried as a float, any other
string as an int; on parse failure the string stays a string.  Non-strings
pass through. -/
def coerceVal (v : PyTerm) : PyTerm :=
  match v with
  | .vstr s =>
    let low := strLower (strTrim s)
    if low = "true" then .vbool true
    else if low = "false" then .vbool false
    else if strHasChar s '.' then
      match pyFloatParse s with
      | some q => .vfloat q
      | none => .vstr s
    else
      match pyIntParse s with
      | some n => .vint n
      | none => .vstr s
  | v => v

/-- The `safe_locals` mapping `safe_eval` builds: every snapshot value run
through `coerceVal` (the callable-extraction step is the identity on
already-narrowed values). -/
def safeLocals : Snap → Snap
  | [] => []
  | (k, v) :: rest => (k, coerceVal v) :: safeLocals rest

example : interpolate (.vstr "${x}") [("x", .vint 5)] = .vstr "5" := rfl
example : interpolate (.vstr "${missing}") [] = .vstr "" := rfl
example : interpolate (.vint 42) [] = .vint 42 := rfl
example : interpolate (.vstr "${x}") [("x", .vbool true)] = .vstr "True" := rfl
example : interpolate (.vstr "${n} > 0") [("n", .vint (-5))] = .vstr "-5 > 0" := rfl
example : interpolate (.vstr "a$${x}b") [("x", .vint 1)] = .vstr "a$1b" := rfl
example : coerceVal (.vstr "True") = .vbool true := rfl
example : coerceVal (.vstr " false ") = .vbool false := rfl
example : coerceVal (.vstr "1e3") = .vstr "1e3" := rfl
example : coerceVal (.vstr "2.5") = .vfloat ⟨25, 10⟩ := rfl
example : coerceVal (.vstr "-7") = .vint (-7) := rfl
example : coerceVal (.vstr "x.y") = .vstr "x.y" := rfl

/-- Binary operator tags of the Python `ast` module that can appear under a
`BinOp` node; `floorDiv` (`//`) is parseable but outside the evaluator's
allow-list. -/
inductive BinK where
  | add | sub | mult | div | mod | pow | floorDiv
deriving DecidableEq

/-- Unary operator tags (`USub`, `UAdd`, `Not`). -/
inductive UnK where
  | usub | uadd | notK
deriving DecidableEq

/-- Comparison operator tags (`Eq`, `NotEq`, `Lt`, `LtE`, `Gt`, `GtE`). -/
inductive CmpK where
  | eq | ne | lt | le | gt | ge
deriving DecidableEq

/-- Boolean operator tags (`And`, `Or`). -/
inductive BoolK where
  | andK | orK
deriving DecidableEq

mutual
/-- A Python expression AST as `ast.parse(expr, mode='eval')` produces one,
restricted to the node kinds the repository's expressions can reach.  A
`Constant` node is split by payload; `call`, `attrAccess` and `subscript`
model `ast.Call`, `ast.Attribute` and `ast.Subscript`, the node kinds the
checker must reject. -/
inductive PyAst where
  | constInt (n : Int)
  | constFloat (q : PyFloat)
  | constStr (s : String)
  | constBool (b : Bool)
  | constNone
  | name (id : String)
  | binop (op : BinK) (l r : PyAst)
  | unaryop (op : UnK) (e : PyAst)
  | compare (l : PyAst) (ops : List CmpK) (rs : PyAstList)
  | boolop (op : BoolK) (es : PyAstList)
  | listlit (es : PyAstList)
  | tuplelit (es : PyAstList)
  | call (fn : PyAst) (args : PyAstList)
  | attrAccess (e : PyAst) (nm : String)
  | subscript (e : PyAst) (idx : PyAst)
/-- A list of expression nodes (spelled out so recursion stays structural). -/
inductive PyAstList where
  | nil
  | cons (hd : PyAst) (tl : PyAstList)
end

/-- A token of the Python expression lexer. -/
inductive Tok where
  | tInt (n : Int)
  | tFloat (q : PyFloat)
  | tStr (s : String)
  | tName (s : String)
  | tOp (s : String)

/-- Lex one numeric literal beginning at a digit or a dot-digit sequence:
the token and the remaining characters. -/
def lexNumber (cs : List Char) : Tok × List Char :=
  let ip := cs.takeWhile Char.isDigit
  let r1 := cs.drop ip.length
  let (isF, fp, r2) : Bool × List Char × List Char :=
    match r1 with
    | '.' :: rest => (true, rest.takeWhile Char.isDigit, rest.drop (rest.takeWhile Char.isDigit).length)
    | rest => (false, [], rest)
  let mant : PyFloat := ⟨(digitsToNat ip : Int) * (10 : Int) ^ fp.length + (digitsToNat fp : Int), 10 ^ fp.length⟩
  match r2 with
  | e :: rest =>
    if e = 'e' ∨ e = 'E' then
      let (eneg, rest1) : Bool × List Char :=
        match rest with
        | '-' :: r => (true, r)
        | '+' :: r => (false, r)
        | r => (false, r)
      let eds := rest1.takeWhile Char.isDigit
      if eds.isEmpty then
        if isF then (.tFloat mant, r2) else (.tInt (digitsToNat ip : Int), r2)
      else
        (.tFloat (fScale10 mant (if eneg then -(digitsToNat eds : Int) else (digitsToNat eds : Int))),
         rest1.drop eds.length)
    else if isF then (.tFloat mant, r2) else (.tInt (digitsToNat ip : Int), r2)
  | [] => if isF then (.tFloat mant, []) else (.tInt (digitsToNat ip : Int), [])

/-- The Python expression lexer, restricted to the characters the grammar
uses; string literals carry no escape processing.  `none` models a
tokenization `SyntaxError`.  Fuel starts at the character count plus one;
every step consumes at least one character. -/
def tokenizeF : Nat → List Char → Option (List Tok)
  | _, [] => some []
  | 0, _ => none
  | f + 1, c :: cs =>
    if c.isWhitespace then tokenizeF f cs
    else if c.isDigit then
      let (t, rest) := lexNumber (c :: cs)
      match tokenizeF f rest with
      | some ts => some (t :: ts)
      | none => none
    else if c.isAlpha ∨ c = '_' then
      let nm := (c :: cs).takeWhile isIdentChar
      match tokenizeF f ((c :: cs).drop nm.length) with
      | some ts => some (.tName (String.mk nm) :: ts)
      | none => none
    else if c = '\'' ∨ c = '"' then
      let body := cs.takeWhile (fun d => !(d = c))
      match cs.drop body.length with
      | _ :: rest =>
        match tokenizeF f rest with
        | some ts => some (.tStr (String.mk body) :: ts)
        | none => none
      | [] => none
    else if c = '.' then
      match cs with
      | d :: _ =>
        if d.isDigit then
          let (t, rest) := lexNumber (c :: cs)
          match tokenizeF f rest with
          | some ts => some (t :: ts)
          | none => none
        else
          match tokenizeF f cs with
          | some ts => some (.tOp "." :: ts)
          | none => none
      | [] => some [.tOp "."]
    else
      let two : Option String :=
        match c, cs with
        | '*', '*' :: _ => some "**"
        | '=', '=' :: _ => some "=="
        | '!', '=' :: _ => some "!="
        | '<', '=' :: _ => some "<="
        | '>', '=' :: _ => some ">="
        | '/', '/' :: _ => some "//"
        | _, _ => none
      match two with
      | some op =>
        match tokenizeF f (cs.drop 1) with
        | some ts => some (.tOp op :: ts)
        | none => none
      | none =>
        let single := ['+', '-', '*', '/', '%', '(', ')', '[', ']', ',', '<', '>', '=']
        if single.any (fun d => d = c) then
          match tokenizeF f cs with
          | some ts => some (.tOp (String.mk [c]) :: ts)
          | none => none
        else none

/-- Python keywords that cannot stand as an expression atom. -/
def isKeyword (nm : String) : Bool :=
  ["and", "or", "not", "if", "else", "elif", "lambda", "is", "in", "for",
   "while", "def", "class", "return", "yield", "import", "from", "with",
   "as", "pass", "del", "assert", "break", "continue", "except", "finally",
   "global", "nonlocal", "raise", "try"].any (fun k => k = nm)

/-- The comparison operator a token denotes, if any. -/
def cmpOfTok : Tok → Option CmpK
  | .tOp "==" => some .eq
  | .tOp "!=" => some .ne
  | .tOp "<" => some .lt
  | .tOp "<=" => some .le
  | .tOp ">" => some .gt
  | .tOp ">=" => some .ge
  | _ => none

mutual
/-- Entry point of the recursive-descent expression parser (precedence:
`or` < `and` < `not` < comparison < `+ -` < `* / % //` < unary < `**` <
postfix < atom, as in Python).  All parser functions return the parsed node
and the unconsumed tokens; fuel decreases on every call. -/
def parseExprF : Nat → List Tok → Option (PyAst × List Tok)
  | 0, _ => none
  | f + 1, ts => parseOrF f ts
/-- An `or`-chain; Python collapses `a or b or c` into one `BoolOp`. -/
def parseOrF : Nat → List Tok → Option (PyAst × List Tok)
  | 0, _ => none
  | f + 1, ts =>
    match parseAndF f ts with
    | none => none
    | some (a, r) =>
      match parseOrRest f r with
      | none => none
      | some (.nil, r2) => some (a, r2)
      | some (more, r2) => some (.boolop .orK (.cons a more), r2)
/-- Further `or` operands. -/
def parseOrRest : Nat → List Tok → Option (PyAstList × List Tok)
  | f + 1, .tName "or" :: ts =>
    match parseAndF f ts with
    | none => none
    | some (a, r) =>
      match parseOrRest f r with
      | none => none
      | some (more, r2) => some (.cons a more, r2)
  | _, ts => some (.nil, ts)
/-- An `and`-chain. -/
def parseAndF : Nat → List Tok → Option (PyAst × List Tok)
  | 0, _ => none
  | f + 1, ts =>
    match parseNotF f ts with
    | none => none
    | some (a, r) =>
      match parseAndRest f r with
      | none => none
      | some (.nil, r2) => some (a, r2)
      | some (more, r2) => some (.boolop .andK (.cons a more), r2)
/-- Further `and` operands. -/
def parseAndRest : Nat → List Tok → Option (PyAstList × List Tok)
  | f + 1, .tName "and" :: ts =>
    match parseNotF f ts with
    | none => none
    | some (a, r) =>
      match parseAndRest f r with
      | none => none
      | some (more, r2) => some (.cons a more, r2)
  | _, ts => some (.nil, ts)
/-- `not` (binds looser than comparisons). -/
def parseNotF : Nat → List Tok → Option (PyAst × List Tok)
  | 0, _ => none
  | f + 1, .tName "not" :: ts =>
    match parseNotF f ts with
    | none => none
    | some (a, r) => some (.unaryop .notK a, r)
  | f + 1, ts => parseCmpF f ts
/-- A comparison chain (`a < b <= c` is one `Compare` node). -/
def parseCmpF : Nat → List Tok → Option (PyAst × List Tok)
  | 0, _ => none
  | f + 1, ts =>
    match parseArithF f ts with
    | none => none
    | some (a, r) =>
      match parseCmpRest f r with
      | none => none
      | some ([], _, r2) => some (a, r2)
      | some (ops, rs, r2) => some (.compare a ops rs, r2)
/-- Further comparison operator/operand pairs. -/
def parseCmpRest : Nat → List Tok → Option (List CmpK × PyAstList × List Tok)
  | f + 1, t :: ts =>
    match cmpOfTok t with
    | some k =>
      match parseArithF f ts with
      | none => none
      | some (b, r) =>
        match parseCmpRest f r with
        | none => none
        | some (ops, rs, r2) => some (k :: ops, .cons b rs, r2)
    | none => some ([], .nil, t :: ts)
  | _, ts => some ([], .nil, ts)
/-- Additive level (`+`, `-`, left associative). -/
def parseArithF : Nat → List Tok → Option (PyAst × List Tok)
  | 0, _ => none
  | f + 1, ts =>
    match parseTermF f ts with
    | none => none
    | some (a, r) => parseArithRest f a r
/-- Left-fold of further additive operands. -/
def parseArithRest : Nat → PyAst → List Tok → Option (PyAst × List Tok)
  | f + 1, a, .tOp "+" :: ts =>
    match parseTermF f ts with
    | none => none
    | some (b, r) => parseArithRest f (.binop .add a b) r
  | f + 1, a, .tOp "-" :: ts =>
    match parseTermF f ts with
    | none => none
    | some (b, r) => parseArithRest f (.binop .sub a b) r
  | _, a, ts => some (a, ts)
/-- Multiplicative level (`*`, `/`, `%`, `//`, left associative). -/
def parseTermF : Nat → List Tok → Option (PyAst × List Tok)
  | 0, _ => none
  | f + 1, ts =>
    match parseFactorF f ts with
    | none => none
    | some (a, r) => parseTermRest f a r
/-- Left-fold of further multiplicative operands. -/
def parseTermRest : Nat → PyAst → List Tok → Option (PyAst × List Tok)
  | f + 1, a, .tOp "*" :: ts =>
    match parseFactorF f ts with
    | none => none
    | some (b, r) => parseTermRest f (.binop .mult a b) r
  | f + 1, a, .tOp "/" :: ts =>
    match parseFactorF f ts with
    | none => none
    | some (b, r) => parseTermRest f (.binop .div a b) r
  | f + 1, a, .tOp "%" :: ts =>
    match parseFactorF f ts with
    | none => none
    | some (b, r) => parseTermRest f (.binop .mod a b) r
  | f + 1, a, .tOp "//" :: ts =>
    match parseFactorF f ts with
    | none => none
    | some (b, r) => parseTermRest f (.binop .floorDiv a b) r
  | _, a, ts => some (a, ts)
/-- Unary level (`-x`, `+x`; `-x ** y` parses as `-(x ** y)`). -/
def parseFactorF : Nat → List Tok → Option (PyAst × List Tok)
  | 0, _ => none
  | f + 1, .tOp "-" :: ts =>
    match parseFactorF f ts with
    | none => none
    | some (a, r) => some (.unaryop .usub a, r)
  | f + 1, .tOp "+" :: ts =>
    match parseFactorF f ts with
    | none => none
    | some (a, r) => some (.unaryop .uadd a, r)
  | f + 1, ts => parsePowF f ts
/-- Power level (`**`, right associative, its right operand a factor). -/
def parsePowF : Nat → List Tok → Option (PyAst × List Tok)
  | 0, _ => none
  | f + 1, ts =>
    match parsePostF f ts with
    | none => none
    | some (a, r) =>
      match r with
      | .tOp "**" :: ts2 =>
        match parseFactorF f ts2 with
        | none => none
        | some (b, r2) => some (.binop .pow a b, r2)
      | _ => some (a, r)
/-- Postfix level: calls, attribute access, subscripting. -/
def parsePostF : Nat → List Tok → Option (PyAst × List Tok)
  | 0, _ => none
  | f + 1, ts =>
    match parseAtomF f ts with
    | none => none
    | some (a, r) => parsePostRest f a r
/-- Fold of postfix operators onto an atom. -/
def parsePostRest : Nat → PyAst → List Tok → Option (PyAst × List Tok)
  | f + 1, a, .tOp "(" :: ts =>
    match parseArgsF f ts with
    | none => none
    | some (args, r) => parsePostRest f (.call a args) r
  | f + 1, a, .tOp "." :: .tName nm :: ts => parsePostRest f (.attrAccess a nm) ts
  | f + 1, a, .tOp "[" :: ts =>
    match parseExprF f ts with
    | none => none
    | some (i, r) =>
      match r with
      | .tOp "]" :: r2 => parsePostRest f (.subscript a i) r2
      | _ => none
  | _, a, ts => some (a, ts)
/-- A call's argument list, after the opening parenthesis. -/
def parseArgsF : Nat → List Tok → Option (PyAstList × List Tok)
  | 0, _ => none
  | _ + 1, .tOp ")" :: ts => some (.nil, ts)
  | f + 1, ts =>
    match parseExprF f ts with
    | none => none
    | some (a, r) =>
      match parseArgsTail f r with
      | none => none
      | some (rest, r2) => some (.cons a rest, r2)
/-- Further call arguments up to the closing parenthesis. -/
def parseArgsTail : Nat → List Tok → Option (PyAstList × List Tok)
  | f + 1, .tOp "," :: ts =>
    match parseExprF f ts with
    | none => none
    | some (a, r) =>
      match parseArgsTail f r with
      | none => none
      | some (rest, r2) => some (.cons a rest, r2)
  | _, .tOp ")" :: ts => some (.nil, ts)
  | _, _ => none
/-- An atom: a literal, a name, a parenthesized expression or tuple, or a
list display. -/
def parseAtomF : Nat → List Tok → Option (PyAst × List Tok)
  | 0, _ => none
  | f + 1, ts =>
    match ts with
    | .tInt n :: r => some (.constInt n, r)
    | .tFloat q :: r => some (.constFloat q, r)
    | .tStr s :: r => some (.constStr s, r)
    | .tName nm :: r =>
      if nm = "True" then some (.constBool true, r)
      else if nm = "False" then some (.constBool false, r)
      else if nm = "None" then some (.constNone, r)
      else if isKeyword nm then none
      else some (.name nm, r)
    | .tOp "(" :: .tOp ")" :: r => some (.tuplelit .nil, r)
    | .tOp "(" :: r =>
      (match parseExprF f r with
       | none => none
       | some (a, r1) =>
         match r1 with
         | .tOp ")" :: r2 => some (a, r2)
         | .tOp "," :: r2 =>
           match parseTupleTail f r2 with
           | none => none
           | some (rest, r3) => some (.tuplelit (.cons a rest), r3)
         | _ => none)
    | .tOp "[" :: .tOp "]" :: r => some (.listlit .nil, r)
    | .tOp "[" :: r =>
      (match parseExprF f r with
       | none => none
       | some (a, r1) =>
         match parseListTail f r1 with
         | none => none
         | some (rest, r2) => some (.listlit (.cons a rest), r2))
    | _ => none
/-- Further tuple elements up to the closing parenthesis. -/
def parseTupleTail : Nat → List Tok → Option (PyAstList × List Tok)
  | _, .tOp ")" :: ts => some (.nil, ts)
  | _ + 1, .tOp "," :: .tOp ")" :: ts => some (.nil, ts)
  | f + 1, ts =>
    match parseExprF f ts with
    | none => none
    | some (a, r) =>
      match r with
      | .tOp "," :: r2 =>
        match parseTupleTail f r2 with
        | none => none
        | some (rest, r3) => some (.cons a rest, r3)
      | .tOp ")" :: r2 => some (.cons a .nil, r2)
      | _ => none
  | _, _ => none
/-- Further list elements up to the closing bracket. -/
def parseListTail : Nat → List Tok → Option (PyAstList × List Tok)
  | _, .tOp "]" :: ts => some (.nil, ts)
  | _ + 1, .tOp "," :: .tOp "]" :: ts => some (.nil, ts)
  | f + 1, .tOp "," :: ts =>
    match parseExprF f ts with
    | none => none
    | some (a, r) =>
      match parseListTail f r with
      | none => none
      | some (rest, r2) => some (.cons a rest, r2)
  | _, _ => none
end

/-- `ast.parse(expr, mode='eval')`: lex, parse, and require every token to
be consumed; the parser fuel comfortably exceeds the recursion depth any
token list can force. -/
def pyParse (s : String) : Option PyAst :=
  match tokenizeF (s.data.length + 1) s.data with
  | none => none
  | some ts =>
    match parseExprF ((ts.length + 4) * 8) ts with
    | some (t, []) => some t
    | _ => none

example : pyParse "-5 > 0" =
    some (.compare (.unaryop .usub (.constInt 5)) [.gt] (.cons (.constInt 0) .nil)) := rfl
example : pyParse "__import__('os')" =
    some (.call (.name "__import__") (.cons (.constStr "os") .nil)) := rfl
example : pyParse "'a' + 'b'" = some (.binop .add (.constStr "a") (.constStr "b")) := rfl
example : pyParse "'a' * 2" = some (.binop .mult (.constStr "a") (.constInt 2)) := rfl
example : pyParse "y" = some (.name "y") := rfl
example : pyParse "__builtins__" = some (.name "__builtins__") := rfl
example : pyParse "1 + 2 * 3" =
    some (.binop .add (.constInt 1) (.binop .mult (.constInt 2) (.constInt 3))) := rfl
example : pyParse "" = none := rfl
example : pyParse "x.y" = some (.attrAccess (.name "x") "y") := rfl
example : pyParse "a[0]" = some (.subscript (.name "a") (.constInt 0)) := rfl
example : pyParse "not 1 == 2" =
    some (.unaryop .notK (.compare (.constInt 1) [.eq] (.cons (.constInt 2) .nil))) := rfl
example : pyParse "1 // 2" = some (.binop .floorDiv (.constInt 1) (.constInt 2)) := rfl
example : pyParse "2.5 > x" =
    some (.compare (.constFloat ⟨25, 10⟩) [.gt] (.cons (.name "x") .nil)) := rfl
example : pyParse "True and False or x" =
    some (.boolop .orK (.cons (.boolop .andK (.cons (.constBool true) (.cons (.constBool false) .nil)))
      (.cons (.name "x") .nil))) := rfl

/-- Whether a `BinOp` operator tag is in `_ALLOWED_NODES` (`ast.Add`,
`Sub`, `Mult`, `Div`, `Mod`, `Pow` are; `ast.FloorDiv` is not). -/
def binAllowed : BinK → Bool
  | .add | .sub | .mult | .div | .mod | .pow => true
  | .floorDiv => false

/-- The `ast` class name of a binary operator tag (for error messages). -/
def binKName : BinK → String
  | .add => "Add"
  | .sub => "Sub"
  | .mult => "Mult"
  | .div => "Div"
  | .mod => "Mod"
  | .pow => "Pow"
  | .floorDiv => "FloorDiv"

mutual
/-- `_check_node` (`ikp_core.py` lines 135-139): raise on a node whose class
is outside `_ALLOWED_NODES`, then recurse over `ast.iter_child_nodes` in
field order.  `Expression`, `Constant`/`Num`, `Name`, `Load`, the six
comparison tags, the three unary tags and `And`/`Or` are all allow-listed,
so only `BinOp` carries an operator check here; `Call`, `Attribute` and
`Subscript` fail at the node itself, before any child is visited. -/
def checkNodeE : PyAst → Except String Unit
  | .constInt _ | .constFloat _ | .constStr _ | .constBool _ | .constNone => .ok ()
  | .name _ => .ok ()
  | .binop op l r =>
    match checkNodeE l with
    | .error m => .error m
    | .ok _ =>
      if binAllowed op then checkNodeE r
      else .error ("Disallowed expression element: " ++ binKName op)
  | .unaryop _ e => checkNodeE e
  | .compare l _ rs =>
    match checkNodeE l with
    | .error m => .error m
    | .ok _ => checkListE rs
  | .boolop _ es => checkListE es
  | .listlit es => checkListE es
  | .tuplelit es => checkListE es
  | .call _ _ => .error "Disallowed expression element: Call"
  | .attrAccess _ _ => .error "Disallowed expression element: Attribute"
  | .subscript _ _ => .error "Disallowed expression element: Subscript"
/-- `_check_node` over a child list, left to right. -/
def checkListE : PyAstList → Except String Unit
  | .nil => .ok ()
  | .cons h t =>
    match checkNodeE h with
    | .error m => .error m
    | .ok _ => checkListE t
end

mutual
/-- The claim-side predicate: the tree contains, at any nesting depth, a
node whose tag is outside the evaluator's allow-set. -/
def containsDisallowed : PyAst → Bool
  | .binop op l r => !binAllowed op || containsDisallowed l || containsDisallowed r
  | .unaryop _ e => containsDisallowed e
  | .compare l _ rs => containsDisallowed l || cdList rs
  | .boolop _ es => cdList es
  | .listlit es => cdList es
  | .tuplelit es => cdList es
  | .call _ _ => true
  | .attrAccess _ _ => true
  | .subscript _ _ => true
  | _ => false
/-- `containsDisallowed` over a node list. -/
def cdList : PyAstList → Bool
  | .nil => false
  | .cons h t => containsDisallowed h || cdList t
end

/-- The numeric view of a value (`int`, `float` and `bool` all support
arithmetic in Python; the flag records whether the value is a float). -/
def asNum : PyTerm → Option (Bool × PyFloat)
  | .vint n => some (false, .ofInt n)
  | .vfloat q => some (true, q)
  | .vbool b => some (false, .ofInt (if b then 1 else 0))
  | _ => none

/-- Package an exact numeric result: a float when either operand was one,
otherwise an int (the pair's denominator is one on every int-only path). -/
def mkNum (isF : Bool) (q : PyFloat) : PyTerm :=
  if isF then .vfloat q else .vint (Int.fdiv q.num (q.den : Int))

/-- The integer view used by sequence repetition (`bool` counts as an int;
a float does not). -/
def asIntLike : PyTerm → Option Int
  | .vint n => some n
  | .vbool b => some (if b then 1 else 0)
  | _ => none

/-- Python string repetition `s * n` (non-positive counts give `""`). -/
def strRepeat (n : Int) (s : String) : String :=
  String.join (List.replicate n.toNat s)

/-- List concatenation on the value model. -/
def plAppend : PyList → PyList → PyList
  | .nil, ys => ys
  | .cons x xs, ys => .cons x (plAppend xs ys)

/-- Python list repetition `l * n`. -/
def plRepeat (n : Nat) (l : PyList) : PyList :=
  match n with
  | 0 => .nil
  | k + 1 => plAppend l (plRepeat k l)

/-- Python's binary arithmetic on values: numbers combine exactly (`/` always
yields a float, `%` is floored, `**` with a negative exponent yields a
float); `+` also concatenates strings with strings and lists with lists; `*`
also repeats a string or list by an int; everything else is a `TypeError`.
A non-integral float exponent is outside the exact-rational model (no claim
reaches one). -/
def pyBinOp (op : BinK) (a b : PyTerm) : Except String PyTerm :=
  match op with
  | .add =>
    match a, b with
    | .vstr x, .vstr y => .ok (.vstr (x ++ y))
    | .vlist x, .vlist y => .ok (.vlist (plAppend x y))
    | _, _ =>
      match asNum a, asNum b with
      | some (fa, x), some (fb, y) => .ok (mkNum (fa || fb) (fAdd x y))
      | _, _ => .error "TypeError: unsupported operand type(s) for +"
  | .sub =>
    match asNum a, asNum b with
    | some (fa, x), some (fb, y) => .ok (mkNum (fa || fb) (fSub x y))
    | _, _ => .error "TypeError: unsupported operand type(s) for -"
  | .mult =>
    match a, b with
    | .vstr s, other =>
      (match asIntLike other with
       | some n => .ok (.vstr (strRepeat n s))
       | none => .error "TypeError: unsupported operand type(s) for *")
    | other, .vstr s =>
      (match asIntLike other with
       | some n => .ok (.vstr (strRepeat n s))
       | none => .error "TypeError: unsupported operand type(s) for *")
    | .vlist l, other =>
      (match asIntLike other with
       | some n => .ok (.vlist (plRepeat n.toNat l))
       | none => .error "TypeError: unsupported operand type(s) for *")
    | other, .vlist l =>
      (match asIntLike other with
       | some n => .ok (.vlist (plRepeat n.toNat l))
       | none => .error "TypeError: unsupported operand type(s) for *")
    | _, _ =>
      match asNum a, asNum b with
      | some (fa, x), some (fb, y) => .ok (mkNum (fa || fb) (fMul x y))
      | _, _ => .error "TypeError: unsupported operand type(s) for *"
  | .div =>
    match asNum a, asNum b with
    | some (_, x), some (_, y) =>
      if fIsZero y then .error "ZeroDivisionError: division by zero"
      else .ok (.vfloat (fDiv x y))
    | _, _ => .error "TypeError: unsupported operand type(s) for /"
  | .mod =>
    match asNum a, asNum b with
    | some (fa, x), some (fb, y) =>
      if fIsZero y then .error "ZeroDivisionError: modulo by zero"
      else if fa || fb then .ok (.vfloat (fMod x y))
      else .ok (.vint (Int.fmod (fFloor x) (fFloor y)))
    | _, _ => .error "TypeError: unsupported operand type(s) for %"
  | .pow =>
    match asNum a, asNum b with
    | some (fa, x), some (fb, y) =>
      if Int.emod y.num (y.den : Int) = 0 then
        let e : Int := fFloor y
        if e ≥ 0 then .ok (mkNum (fa || fb) (fPow x e.toNat))
        else if fIsZero x then .error "ZeroDivisionError: zero to a negative power"
        else .ok (.vfloat (fDiv (PyFloat.ofInt 1) (fPow x (-e).toNat)))
      else .error "non-integral exponent outside the model"
    | _, _ => .error "TypeError: unsupported operand type(s) for **"
  | .floorDiv => .error "FloorDiv is rejected by the checker before evaluation"

mutual
/-- Python `==` on values: numeric kinds compare by value (`True == 1`),
strings by content, `None` to `None`, lists elementwise; unrelated kinds
compare unequal (never an error).  Dict equality is outside the model: no
expression the evaluator accepts can build a dict. -/
def pyEqV : PyTerm → PyTerm → Bool
  | a, b =>
    match asNum a, asNum b with
    | some (_, x), some (_, y) => fEq x y
    | _, _ =>
      match a, b with
      | .vstr x, .vstr y => x == y
      | .vnone, .vnone => true
      | .vlist x, .vlist y => pyEqL x y
      | _, _ => false
/-- Elementwise equality of list values. -/
def pyEqL : PyList → PyList → Bool
  | .nil, .nil => true
  | .cons a x, .cons b y => pyEqV a b && pyEqL x y
  | _, _ => false
end

/-- Lexicographic order on strings by code point (Python's `<`). -/
def strLtB : List Char → List Char → Bool
  | [], [] => false
  | [], _ :: _ => true
  | _ :: _, [] => false
  | a :: x, b :: y =>
    if a.toNat < b.toNat then true
    else if b.toNat < a.toNat then false
    else strLtB x y

/-- One comparison step: `==`/`!=` never fail; the order comparisons work
on numbers and on string pairs and are a `TypeError` elsewhere (list
ordering is outside the model: no claim compares lists). -/
def pyCmpOp (op : CmpK) (a b : PyTerm) : Except String Bool :=
  match op with
  | .eq => .ok (pyEqV a b)
  | .ne => .ok (!pyEqV a b)
  | _ =>
    match asNum a, asNum b with
    | some (_, x), some (_, y) =>
      .ok (match op with
           | .lt => fLt x y
           | .le => fLe x y
           | .gt => fLt y x
           | .ge => fLe y x
           | _ => false)
    | _, _ =>
      match a, b with
      | .vstr x, .vstr y =>
        .ok (match op with
             | .lt => strLtB x.data y.data
             | .le => strLtB x.data y.data || x == y
             | .gt => strLtB y.data x.data
             | .ge => strLtB y.data x.data || x == y
             | _ => false)
      | _, _ => .error "TypeError: order comparison not supported between instances"

/-- Python's unary operators: `-`/`+` on numbers (`-True` is `-1`), `not`
on any value via truthiness. -/
def pyUnaryOp (op : UnK) (v : PyTerm) : Except String PyTerm :=
  match op with
  | .usub =>
    match asNum v with
    | some (f, q) => .ok (mkNum f (fNeg q))
    | none => .error "TypeError: bad operand type for unary -"
  | .uadd =>
    match asNum v with
    | some (f, q) => .ok (mkNum f q)
    | none => .error "TypeError: bad operand type for unary +"
  | .notK => .ok (.vbool (!pyTruthy v))

mutual
/-- `eval(code, globals, locals)` over the checked AST, with
`globals = \x7b"__builtins__": None\x7d` and `locals = safe_locals`: a name
resolves through the locals, then through the globals (where only the literal
key `__builtins__`, bound to `None`, exists), else `NameError`; comparisons
and boolean operators short-circuit as in Python; tuples are rendered as
list values.  The `call`/`attrAccess`/`subscript` arms are unreachable
through `safe_eval` (the checker rejects those nodes first). -/
def evalAst : PyAst → Snap → Except String PyTerm
  | .constInt n, _ => .ok (.vint n)
  | .constFloat q, _ => .ok (.vfloat q)
  | .constStr s, _ => .ok (.vstr s)
  | .constBool b, _ => .ok (.vbool b)
  | .constNone, _ => .ok .vnone
  | .name nm, env =>
    match snapGet env nm with
    | some v => .ok v
    | none =>
      if nm = "__builtins__" then .ok .vnone
      else .error ("NameError: name " ++ nm ++ " is not defined")
  | .binop op l r, env =>
    match evalAst l env with
    | .error m => .error m
    | .ok a =>
      match evalAst r env with
      | .error m => .error m
      | .ok b => pyBinOp op a b
  | .unaryop op e, env =>
    match evalAst e env with
    | .error m => .error m
    | .ok v => pyUnaryOp op v
  | .compare l ops rs, env =>
    match evalAst l env with
    | .error m => .error m
    | .ok a => evalChain a ops rs env
  | .boolop k es, env => evalBoolSeq k es env
  | .listlit es, env =>
    match evalSeq es env with
    | .error m => .error m
    | .ok vs => .ok (.vlist vs)
  | .tuplelit es, env =>
    match evalSeq es env with
    | .error m => .error m
    | .ok vs => .ok (.vlist vs)
  | .call _ _, _ => .error "TypeError: object is not callable"
  | .attrAccess _ _, _ => .error "AttributeError"
  | .subscript _ _, _ => .error "TypeError: object is not subscriptable"
/-- A comparison chain, short-circuiting at the first false link; the
chain's value is a bool, as in Python. -/
def evalChain : PyTerm → List CmpK → PyAstList → Snap → Except String PyTerm
  | _, [], .nil, _ => .ok (.vbool true)
  | a, op :: ops, .cons r rs, env =>
    match evalAst r env with
    | .error m => .error m
    | .ok b =>
      match pyCmpOp op a b with
      | .error m => .error m
      | .ok t => if t then evalChain b ops rs env else .ok (.vbool false)
  | _, _, _, _ => .error "malformed comparison"
/-- `and`/`or` over the operand list: the value of the first operand that
decides the chain, or of the last one (Python returns the operand itself,
not a bool). -/
def evalBoolSeq : BoolK → PyAstList → Snap → Except String PyTerm
  | _, .nil, _ => .error "malformed boolean operation"
  | _, .cons e .nil, env => evalAst e env
  | k, .cons e rest, env =>
    match evalAst e env with
    | .error m => .error m
    | .ok v =>
      match k with
      | .andK => if pyTruthy v then evalBoolSeq k rest env else .ok v
      | .orK => if pyTruthy v then .ok v else evalBoolSeq k rest env
/-- Left-to-right evaluation of a node list. -/
def evalSeq : PyAstList → Snap → Except String PyList
  | .nil, _ => .ok .nil
  | .cons e rest, env =>
    match evalAst e env with
    | .error m => .error m
    | .ok v =>
      match evalSeq rest env with
      | .error m => .error m
      | .ok vs => .ok (.cons v vs)
end

/-- `safe_eval(expr, vars_map)` (`ikp_core.py` lines 141-202): a non-string
expression is a `ValueError`; a stripped-empty expression returns `False`;
otherwise parse (`Parse error` on failure), run `_check_node`, build
`safe_locals` by coercion, and evaluate with no builtins reachable
(`Evaluation error` wraps any runtime fault). -/
def safe_eval (expr : PyTerm) (vars : Snap) : Except String PyTerm :=
  match expr with
  | .vstr s =>
    let e := strTrim s
    if e = "" then .ok (.vbool false)
    else
      match pyParse e with
      | none => .error "Parse error"
      | some t =>
        match checkNodeE t with
        | .error m => .error m
        | .ok _ =>
          match evalAst t (safeLocals vars) with
          | .ok v => .ok v
          | .error m => .error ("Evaluation error: " ++ m)
  | _ => .error "Expression must be a string"

example : safe_eval (.vstr "1 + 2 * 3") [] = .ok (.vint 7) := rfl
example : safe_eval (.vstr "-5 > 0") [] = .ok (.vbool false) := rfl
example : safe_eval (.vstr "x > 3") [("x", .vint 5)] = .ok (.vbool true) := rfl
example : safe_eval (.vstr "x > 3") [("x", .vstr "5")] = .ok (.vbool true) := rfl
example : safe_eval (.vstr "") [] = .ok (.vbool false) := rfl
example : safe_eval (.vstr "   ") [] = .ok (.vbool false) := rfl
example : safe_eval (.vstr "'a' + 'b'") [] = .ok (.vstr "ab") := rfl
example : safe_eval (.vstr "'a' * 2") [] = .ok (.vstr "aa") := rfl
example : safe_eval (.vstr "'a' + 1") []
    = .error "Evaluation error: TypeError: unsupported operand type(s) for +" := rfl
example : safe_eval (.vstr "__import__('os')") []
    = .error "Disallowed expression element: Call" := rfl
example : safe_eval (.vstr "__builtins__") [] = .ok .vnone := rfl
example : safe_eval (.vstr "y") [] = .error "Evaluation error: NameError: name y is not defined" := rfl
example : safe_eval .vnone [] = .error "Expression must be a string" := rfl
example : safe_eval (.vstr "10 / 4") [] = .ok (.vfloat ⟨10, 4⟩) := rfl
example : safe_eval (.vstr "1 // 2") [] = .error "Disallowed expression element: FloorDiv" := rfl
example : safe_eval (.vstr "True and False") [] = .ok (.vbool false) := rfl
example : safe_eval (.vstr "-5.0 > 0") [] = .ok (.vbool false) := rfl

/-- The text before the last `)` of the list, or `none` when no `)` occurs:
what the greedy `(.+)` / `(.*)`-style groups of the legacy patterns capture
before their `\s*\)` tail (the regexes are `re.match`-anchored, so anything
after that parenthesis is ignored). -/
def splitLastClose (cs : List Char) : Option (List Char) :=
  let r := cs.reverse
  let after := r.takeWhile (fun c => !(c = ')'))
  if after.length = r.length then none
  else some ((r.drop (after.length + 1)).reverse)

/-- Python `s.strip(c)` for one character: remove every leading and trailing
occurrence. -/
def stripChar (c : Char) (cs : List Char) : List Char :=
  ((cs.dropWhile (fun d => d = c)).reverse.dropWhile (fun d => d = c)).reverse

/-- The quote stripping the legacy `set` pattern applies to its value:
`.strip('"').strip("'")`. -/
def stripQuotes (s : String) : String :=
  String.mk (stripChar '\'' (stripChar '"' s.data))

/-- `_LEGACY_SET_RE.match(action)`:
`\s*set\(\s*([^,]+)\s*,\s*(.+)\s*\)\s*`, case-insensitive, anchored at the
start; on a match, the name is group 1 stripped and the value group 2
stripped of whitespace and then of double and single quotes. -/
def legacySet (s : String) : Option (String × String) :=
  let cs := s.data.dropWhile Char.isWhitespace
  if (cs.take 4).map Char.toLower == "set(".data ∧ cs.length ≥ 4 then
    let rest := cs.drop 4
    let g1 := rest.takeWhile (fun c => !(c = ','))
    match rest.drop g1.length with
    | _ :: rest2 =>
      if g1.isEmpty then none
      else
        match splitLastClose rest2 with
        | some before =>
          if (before.dropWhile Char.isWhitespace).isEmpty then none
          else some (strTrim (String.mk g1), stripQuotes (strTrim (String.mk before)))
        | none => none
    | [] => none
  else none

/-- `_LEGACY_PROGRESS_RE.match(action)`:
`\s*progress\(\s*([^,]+)\s*,\s*([0-9\.\-]+)\s*\)\s*`, case-insensitive,
anchored at the start; group 2 is the greedy run over the class
`[0-9.\-]`, which need not be a well-formed numeral. -/
def legacyProgress (s : String) : Option (String × String) :=
  let cs := s.data.dropWhile Char.isWhitespace
  if (cs.take 9).map Char.toLower == "progress(".data ∧ cs.length ≥ 9 then
    let rest := cs.drop 9
    let g1 := rest.takeWhile (fun c => !(c = ','))
    match rest.drop g1.length with
    | _ :: rest2 =>
      if g1.isEmpty then none
      else
        let rest3 := rest2.dropWhile Char.isWhitespace
        let g2 := rest3.takeWhile (fun c => c.isDigit || c = '.' || c = '-')
        if g2.isEmpty then none
        else
          match (rest3.drop g2.length).dropWhile Char.isWhitespace with
          | ')' :: _ => some (strTrim (String.mk g1), String.mk g2)
          | _ => none
    | [] => none
  else none

/-- `_LEGACY_GOTO_RE.match(action)`: `\s*goto\(\s*(.+)\s*\)\s*`,
case-insensitive, anchored at the start; the target is group 1 stripped. -/
def legacyGoto (s : String) : Option String :=
  let cs := s.data.dropWhile Char.isWhitespace
  if (cs.take 5).map Char.toLower == "goto(".data ∧ cs.length ≥ 5 then
    let rest := cs.drop 5
    match splitLastClose rest with
    | some before =>
      if (before.dropWhile Char.isWhitespace).isEmpty then none
      else some (strTrim (String.mk before))
    | none => none
  else none

/-- The host context handed to `execute_action`: which of the four optional
callbacks are present, and the `get_vars` snapshot provider (with the
snapshot it would return). -/
structure Ctx where
  show_scene : Bool
  set_var : Bool
  set_progress : Bool
  handle_action : Bool
  get_vars : Option Snap

/-- One observable callback invocation of `execute_action`. -/
inductive Call where
  | show_scene (target : PyTerm)
  | set_var (name value : PyTerm)
  | set_progress (name value : PyTerm)
  | handle_action (action : PyTerm)

/-- Python `float(val)` on an arbitrary value: ints, floats and bools
convert; strings go through the float grammar; everything else is a
`ValueError`/`TypeError` (`none`). -/
def pyFloatOf : PyTerm → Option PyFloat
  | .vint n => some (.ofInt n)
  | .vfloat q => some q
  | .vbool b => some (.ofInt (if b then 1 else 0))
  | .vstr s => pyFloatParse s
  | _ => none

mutual
/-- `execute_action` (`ikp_core.py` lines 211-315), with explicit fuel (the
initial budget `pySize action + 1` strictly exceeds the recursion depth, and
each recursive call strictly shrinks the action, so the fuel-exhaustion arm
is unreachable from `execute_action`).  The result is the list of callback
invocations in order, or the uncaught exception the run raises.  Falsy
actions and unmatched legacy strings are no-ops; the legacy `set`,
`progress` and `goto` patterns fire in that order; a structured action
dispatches on its `type`; unknown types go to `handle_action` when present. -/
def execA : Nat → PyTerm → Ctx → Except String (List Call)
  | 0, _, _ => .error "RecursionError"
  | f + 1, action, ctx =>
    if !pyTruthy action then .ok []
    else
      match action with
      | .vstr s =>
        (match legacySet s with
         | some (k, v) => .ok (if ctx.set_var then [.set_var (.vstr k) (.vstr v)] else [])
         | none =>
           match legacyProgress s with
           | some (nm, numtxt) =>
             (match pyFloatParse numtxt with
              | some q => .ok (if ctx.set_progress then [.set_progress (.vstr nm) (.vfloat q)] else [])
              | none => .error "ValueError: could not convert string to float")
           | none =>
             match legacyGoto s with
             | some tgt => .ok (if ctx.show_scene then [.show_scene (.vstr tgt)] else [])
             | none => .ok [])
      | .vdict entries =>
        (match dictGet entries "type" with
         | some (.vstr t) =>
           if t == "goto" then
             match dictGet entries "target" with
             | some tgt => .ok (if pyTruthy tgt && ctx.show_scene then [.show_scene tgt] else [])
             | none => .ok []
           else if t == "set" then
             let varV := dictGet entries "var"
             let val0 := (dictGet entries "value").getD .vnone
             let val :=
               match val0 with
               | .vstr str =>
                 (match ctx.get_vars with
                  | some snap => interpolate (.vstr str) snap
                  | none => .vstr str)
               | v => v
             let varOk := match varV with
               | some .vnone => false
               | some _ => true
               | none => false
             if ctx.set_var && varOk then .ok [.set_var (varV.getD .vnone) val]
             else .ok []
           else if t == "progress" then
             let tgt :=
               match dictGet entries "target" with
               | some u => if pyTruthy u then u else (dictGet entries "var").getD .vnone
               | none => (dictGet entries "var").getD .vnone
             let val0 := (dictGet entries "value").getD (.vint 0)
             let val :=
               match val0 with
               | .vstr str =>
                 (match ctx.get_vars with
                  | some snap => interpolate (.vstr str) snap
                  | none => .vstr str)
               | v => v
             if ctx.set_progress && pyTruthy tgt then
               match pyFloatOf val with
               | some q => .ok [.set_progress tgt (.vfloat q)]
               | none => .ok [.set_progress tgt val]
             else .ok []
           else if t == "if" then
             let cond := (dictGet entries "condition").getD (.vstr "")
             let vars := ctx.get_vars.getD []
             let condI := interpolate cond vars
             let pass := match safe_eval condI vars with
               | .ok v => pyTruthy v
               | .error _ => false
             let branch := if pass then dictGet entries "then" else dictGet entries "else"
             match branch with
             | some (.vdict e2) => execA f (.vdict e2) ctx
             | some (.vlist xs) => execSeqA f xs ctx
             | _ => .ok []
           else .ok (if ctx.handle_action then [.handle_action (.vdict entries)] else [])
         | _ => .ok (if ctx.handle_action then [.handle_action (.vdict entries)] else []))
      | _ => .ok []

/-- The `for a in branch: execute_action(a, context)` loop of the `if`
branch: invocations accumulate left to right; an exception aborts the loop
and propagates (the calls already made are not reported on the error path). -/
def execSeqA : Nat → PyList → Ctx → Except String (List Call)
  | _, .nil, _ => .ok []
  | 0, _, _ => .error "RecursionError"
  | f + 1, .cons a rest, ctx =>
    match execA f a ctx with
    | .error m => .error m
    | .ok cs =>
      match execSeqA f rest ctx with
      | .error m => .error m
      | .ok more => .ok (cs ++ more)
end

/-- `execute_action(action, context)`: the fuelled interpreter at an
always-sufficient budget. -/
def execute_action (action : PyTerm) (ctx : Ctx) : Except String (List Call) :=
  execA (pySize action + 1) action ctx

example : legacyGoto "goto(Hello)" = some "Hello" := rfl
example : legacySet "goto(Hello)" = none := rfl
example : legacyProgress "goto(Hello)" = none := rfl
example : legacySet " SET( a , 'v 1' ) " = some ("a", "v 1") := rfl
example : legacyProgress "progress(p, .)" = some ("p", ".") := rfl
example : legacyProgress "progress(p, 0.5)" = some ("p", "0.5") := rfl
example : legacyGoto "goto( )" = none := rfl
example : execute_action (.vstr "goto(Hello)") ⟨true, true, true, true, some []⟩
    = .ok [.show_scene (.vstr "Hello")] := rfl
example : execute_action (.vstr "progress(p, .)") ⟨false, false, false, false, none⟩
    = .error "ValueError: could not convert string to float" := rfl
example : execute_action (.vstr "progress(p, 0.5)") ⟨true, true, true, true, some []⟩
    = .ok [.set_progress (.vstr "p") (.vfloat ⟨5, 10⟩)] := rfl
example : execute_action (.vstr "nonsense") ⟨true, true, true, true, some []⟩ = .ok [] := rfl
example : execute_action .vnone ⟨true, true, true, true, some []⟩ = .ok [] := rfl
example : execute_action (.vdict (.cons "type" (.vstr "mystery") .nil))
    ⟨true, true, true, false, some []⟩ = .ok [] := rfl
example : execute_action (.vdict (.cons "type" (.vstr "mystery") .nil))
    ⟨true, true, true, true, some []⟩
    = .ok [.handle_action (.vdict (.cons "type" (.vstr "mystery") .nil))] := rfl

/-- Decimal digit characters of a natural number (most significant first);
the fuel bounds the digit count. -/
def natDigits : Nat → Nat → List Char
  | 0, _ => []
  | f + 1, n =>
    if n < 10 then [Char.ofNat (48 + n)]
    else natDigits f (n / 10) ++ [Char.ofNat (48 + n % 10)]

/-- Decimal text of a natural number (the `ui[{i}]` index in messages). -/
def natStr (n : Nat) : String := String.mk (natDigits (n + 1) n)

/-- The inner loop of `validate_ikp` over one scene's `ui` list: a non-dict
item or an item without a `type` key each contribute one error. -/
def checkUi (sname : String) : Nat → PyList → List String
  | _, .nil => []
  | i, .cons item rest =>
    (match item with
     | .vdict ie =>
       if (dictGet ie "type").isSome then []
       else ["Scene '" ++ sname ++ "' ui[" ++ natStr i ++ "] missing required field 'type'."]
     | _ => ["Scene '" ++ sname ++ "' ui[" ++ natStr i ++ "] must be a mapping."]) ++
    checkUi sname (i + 1) rest

/-- The per-scene checks of `validate_ikp`: a non-dict scene is one error; a
scene whose `ui` is absent (or `None`, which `scene.get("ui")` also returns
as `None`) is one warning; a non-list `ui` is one error; a list `ui` is
checked item by item. -/
def validateScene (sname : String) (scene : PyTerm) : List String × List String :=
  match scene with
  | .vdict se =>
    (match dictGet se "ui" with
     | none => ([], ["Scene '" ++ sname ++ "' has no `ui` list."])
     | some .vnone => ([], ["Scene '" ++ sname ++ "' has no `ui` list."])
     | some (.vlist ui) => (checkUi sname 0 ui, [])
     | some _ => (["Scene '" ++ sname ++ "': `ui` must be a list."], []))
  | _ => (["Scene '" ++ sname ++ "' must be a mapping/object."], [])

/-- The scene loop of `validate_ikp`: errors and warnings accumulate in
scene order. -/
def validateScenes : PyDict → List String × List String
  | .nil => ([], [])
  | .cons sname scene rest =>
    let (e1, w1) := validateScene sname scene
    let (e2, w2) := validateScenes rest
    (e1 ++ e2, w1 ++ w2)

/-- `validate_ikp(data)` (`ikp_core.py` lines 31-57): a non-dict root is one
error and an immediate return; a missing or non-dict `scenes` is one error
and an immediate return; otherwise every scene is checked and the error and
warning lists are returned. -/
def validate_ikp (data : PyTerm) : List String × List String :=
  match data with
  | .vdict entries =>
    (match dictGet entries "scenes" with
     | some (.vdict scenes) => validateScenes scenes
     | _ => (["`scenes` must be a mapping with at least one scene."], []))
  | _ => (["Root must be a mapping (YAML dictionary)."], [])

example : validate_ikp (.vdict (.cons "scenes" (.vdict .nil) .nil)) = ([], []) := rfl
example : validate_ikp (.vdict .nil)
    = (["`scenes` must be a mapping with at least one scene."], []) := rfl
example : validate_ikp (.vstr "x") = (["Root must be a mapping (YAML dictionary)."], []) := rfl
example :
    validate_ikp (.vdict (.cons "scenes"
      (.vdict (.cons "a" (.vdict .nil) .nil)) .nil))
    = ([], ["Scene 'a' has no `ui` list."]) := rfl
example :
    validate_ikp (.vdict (.cons "scenes"
      (.vdict (.cons "a" (.vdict (.cons "ui"
        (.vlist (.cons (.vdict (.cons "type" (.vstr "label") .nil))
          (.cons (.vdict .nil) (.cons (.vint 3) .nil)))) .nil)) .nil)) .nil))
    = (["Scene 'a' ui[1] missing required field 'type'.",
        "Scene 'a' ui[2] must be a mapping."], []) := rfl

example : execute_action
    (.vdict (.cons "type" (.vstr "if")
      (.cons "condition" (.vstr "${n} > 0")
        (.cons "then" (.vdict (.cons "type" (.vstr "set")
            (.cons "var" (.vstr "n") (.cons "value" (.vstr "-1") .nil))))
          (.cons "else" (.vdict (.cons "type" (.vstr "set")
            (.cons "var" (.vstr "n") (.cons "value" (.vstr "1") .nil))))
            .nil)))))
    ⟨true, true, true, true, some [("n", .vint (-5))]⟩
    = .ok [.set_var (.vstr "n") (.vstr "1")] := rfl

mutual
/-- A tree containing a disallowed node makes `_check_node` raise: the
checker's result is an error whose message depends only on the tree. -/
def cdErr : (t : PyAst) → containsDisallowed t = true → ∃ m, checkNodeE t = Except.error m
  | .binop op l r, h => by
    cases hl : checkNodeE l with
    | error m => exact ⟨m, by simp only [checkNodeE, hl]⟩
    | ok u =>
      by_cases hb : binAllowed op
      · have hlr : containsDisallowed l = true ∨ containsDisallowed r = true := by
          simp only [containsDisallowed, hb, Bool.not_true, Bool.false_or, Bool.or_eq_true] at h
          exact h
        rcases hlr with hcl | hcr
        · obtain ⟨m, hm⟩ := cdErr l hcl
          rw [hm] at hl; exact absurd hl (by simp)
        · obtain ⟨m, hm⟩ := cdErr r hcr
          exact ⟨m, by simp only [checkNodeE, hl, hb, if_true]; exact hm⟩
      · refine ⟨"Disallowed expression element: " ++ binKName op, ?_⟩
        simp only [checkNodeE, hl]
        rw [if_neg hb]
  | .unaryop op e, h => by
    obtain ⟨m, hm⟩ := cdErr e (by simpa only [containsDisallowed] using h)
    exact ⟨m, by simp only [checkNodeE]; exact hm⟩
  | .compare l ops rs, h => by
    cases hl : checkNodeE l with
    | error m => exact ⟨m, by simp only [checkNodeE, hl]⟩
    | ok u =>
      have hlr : containsDisallowed l = true ∨ cdList rs = true := by
        simpa only [containsDisallowed, Bool.or_eq_true] using h
      rcases hlr with hcl | hcr
      · obtain ⟨m, hm⟩ := cdErr l hcl
        rw [hm] at hl; exact absurd hl (by simp)
      · obtain ⟨m, hm⟩ := cdErrL rs hcr
        exact ⟨m, by simp only [checkNodeE, hl]; exact hm⟩
  | .boolop op es, h => by
    obtain ⟨m, hm⟩ := cdErrL es (by simpa only [containsDisallowed] using h)
    exact ⟨m, by simp only [checkNodeE]; exact hm⟩
  | .listlit es, h => by
    obtain ⟨m, hm⟩ := cdErrL es (by simpa only [containsDisallowed] using h)
    exact ⟨m, by simp only [checkNodeE]; exact hm⟩
  | .tuplelit es, h => by
    obtain ⟨m, hm⟩ := cdErrL es (by simpa only [containsDisallowed] using h)
    exact ⟨m, by simp only [checkNodeE]; exact hm⟩
  | .call _ _, _ => ⟨"Disallowed expression element: Call", rfl⟩
  | .attrAccess _ _, _ => ⟨"Disallowed expression element: Attribute", rfl⟩
  | .subscript _ _, _ => ⟨"Disallowed expression element: Subscript", rfl⟩
/-- `cdErr` over a node list. -/
def cdErrL : (l : PyAstList) → cdList l = true → ∃ m, checkListE l = Except.error m
  | .cons a rest, h => by
    cases ha : checkNodeE a with
    | error m => exact ⟨m, by simp only [checkListE, ha]⟩
    | ok u =>
      have hlr : containsDisallowed a = true ∨ cdList rest = true := by
        simpa only [cdList, Bool.or_eq_true] using h
      rcases hlr with hca | hcr
      · obtain ⟨m, hm⟩ := cdErr a hca
        rw [hm] at ha; exact absurd ha (by simp)
      · obtain ⟨m, hm⟩ := cdErrL rest hcr
        exact ⟨m, by simp only [checkListE, ha]; exact hm⟩
end

/-- Unfolding of `safe_eval` past a successful parse. -/
theorem safe_eval_of_parse (s : String) (t : PyAst) (vars : Snap)
    (hne : ¬ (strTrim s = "")) (hp : pyParse (strTrim s) = some t) :
    safe_eval (.vstr s) vars =
      (match checkNodeE t with
       | .error m => .error m
       | .ok _ =>
         match evalAst t (safeLocals vars) with
         | .ok v => .ok v
         | .error m => .error ("Evaluation error: " ++ m)) := by
  simp only [safe_eval]
  rw [if_neg hne, hp]

/-- C1: an expression string whose parse tree contains a node whose tag is
outside the evaluator's allow-set, at any nesting depth, makes `safe_eval`
fail with the node checker's error, before any evaluation happens: the error
is produced by `_check_node` alone and is the same for every variable
snapshot.  (`evaluate("__import__('os')", {})` is the witness instance.) -/
theorem safe_eval_rejects_disallowed (s : String) (t : PyAst)
    (hp : pyParse (strTrim s) = some t) (hd : containsDisallowed t = true) :
    ∃ m, checkNodeE t = Except.error m ∧
      ∀ vars : Snap, safe_eval (.vstr s) vars = .error m := by
  obtain ⟨m, hm⟩ := cdErr t hd
  have hne : ¬ (strTrim s = "") := by
    intro h0
    rw [h0] at hp
    exact Option.noConfusion hp
  refine ⟨m, hm, fun vars => ?_⟩
  rw [safe_eval_of_parse s t vars hne hp, hm]

/-- Witness for C1 at `evaluate("__import__('os')", {})`: the parse tree is
a `Call` node (a disallowed tag), and `safe_eval` fails. -/
theorem safe_eval_rejects_disallowed_witness :
    containsDisallowed (.call (.name "__import__") (.cons (.constStr "os") .nil)) = true
    ∧ ∃ m, safe_eval (.vstr "__import__('os')") [] = .error m := by
  refine ⟨rfl, ?_⟩
  obtain ⟨m, _, hall⟩ := safe_eval_rejects_disallowed "__import__('os')"
    (.call (.name "__import__") (.cons (.constStr "os") .nil)) rfl rfl
  exact ⟨m, hall []⟩

/-- C2 (code bug): the interpreter is *not* uniformly fail-safe.  The legacy
`progress(...)` branch converts its captured numeric text with an unguarded
`float(...)`, so `execute("progress(p, .)", {})` raises a `ValueError` out of
`execute_action` (the regex class `[0-9.\-]+` accepts `"."`, which `float`
rejects); by contrast the structured `SetProgress` branch is guarded as the
claim describes: when float conversion of the (interpolated) value fails,
the value is passed to `set_progress` unchanged: exactly one call, never an
exception, never a drop. -/
theorem progress_float_failure_behaviour :
    execute_action (.vstr "progress(p, .)") ⟨false, false, false, false, none⟩
      = .error "ValueError: could not convert string to float"
    ∧ execute_action
        (.vdict (.cons "type" (.vstr "progress")
          (.cons "target" (.vstr "p") (.cons "value" (.vstr "abc") .nil))))
        ⟨false, false, true, false, some []⟩
      = .ok [.set_progress (.vstr "p") (.vstr "abc")] :=
  ⟨rfl, rfl⟩

/-- C3: executing the conditional with condition `"${n} > 0"`, a `then`
branch setting `n` to `"-1"` and an `else` branch setting `n` to `"1"`,
against any context whose snapshot maps `n` to the number `-5` and whose
`set_variable` callback is present, invokes `set_variable` exactly once,
with arguments `("n", "1")`, and invokes no other callback: the condition is
interpolated and evaluated against the pre-action snapshot and exactly the
`else` branch runs. -/
theorem conditional_runs_else_branch (b1 b3 b4 : Bool) :
    execute_action
      (.vdict (.cons "type" (.vstr "if")
        (.cons "condition" (.vstr "${n} > 0")
          (.cons "then" (.vdict (.cons "type" (.vstr "set")
              (.cons "var" (.vstr "n") (.cons "value" (.vstr "-1") .nil))))
            (.cons "else" (.vdict (.cons "type" (.vstr "set")
              (.cons "var" (.vstr "n") (.cons "value" (.vstr "1") .nil))))
              .nil)))))
      ⟨b1, true, b3, b4, some [("n", .vint (-5))]⟩
    = .ok [.set_var (.vstr "n") (.vstr "1")] := rfl

/-- C4 (code bug): `validate_ikp` only checks that `scenes` is a dict, not
that it is non-empty, so the document `{"scenes": {}}` passes validation
with no errors and no warnings, although the validator's own error message
demands "at least one scene"; a mapping document with no `scenes` key does
return exactly one error and no warnings, as the claim states. -/
theorem validate_scenes_behaviour :
    validate_ikp (.vdict (.cons "scenes" (.vdict .nil) .nil)) = ([], [])
    ∧ validate_ikp (.vdict .nil)
      = (["`scenes` must be a mapping with at least one scene."], []) :=
  ⟨rfl, rfl⟩

/-- Counterexample to C5: coercing `"true"` to a boolean and rendering it
through interpolation yields `"True"` (Python's `str(True)` casing), not the
lowercased `"true"` the claim demands. -/
theorem bool_roundtrip_counterexample :
    interpolate (.vstr "${x}") [("x", coerceVal (.vstr "true"))] = .vstr "True"
    ∧ ¬ ("True" = "true") :=
  ⟨rfl, by decide⟩

/-- C5 (amended): coercion does case-normalise — both `"true"` and `"True"`
coerce to the same boolean — but interpolation renders a true boolean as
`"True"` (Python's `str` casing), so the round trip yields `"True"`
regardless of the original casing, not the lowercased form. -/
theorem bool_roundtrip_amended :
    coerceVal (.vstr "true") = .vbool true
    ∧ coerceVal (.vstr "True") = .vbool true
    ∧ interpolate (.vstr "${x}") [("x", .vbool true)] = .vstr "True" :=
  ⟨rfl, rfl, rfl⟩

/-- C6: for every context, the legacy string action `"goto(Hello)"` has
exactly the observable effect of the structured
`{type: "goto", target: "Hello"}` action: one `navigate("Hello")` call when
the callback is present, and no call when it is absent. -/
theorem legacy_goto_matches_structured (ctx : Ctx) :
    execute_action (.vstr "goto(Hello)") ctx
      = execute_action
          (.vdict (.cons "type" (.vstr "goto") (.cons "target" (.vstr "Hello") .nil))) ctx
    ∧ execute_action
        (.vdict (.cons "type" (.vstr "goto") (.cons "target" (.vstr "Hello") .nil))) ctx
      = .ok (if ctx.show_scene then [.show_scene (.vstr "Hello")] else []) := by
  obtain ⟨s, v, p, h, g⟩ := ctx
  cases s <;> exact ⟨rfl, rfl⟩

/-- Counterexample to C8: a string literal is an `ast.Constant`, which the
allow-list admits, so `evaluate("'a' + 'b'", {})` evaluates to the string
`"ab"` instead of failing with an `ExpressionError`. -/
theorem str_arith_counterexample :
    safe_eval (.vstr "'a' + 'b'") [] = .ok (.vstr "ab") := rfl

/-- C8 (amended): string literals pass the node checker and arithmetic on
them follows Python semantics — `'a' + 'b'` evaluates to `"ab"` and
`'a' * 2` to `"aa"`; only arithmetic mixing a string with a number, such as
`'a' + 1`, fails with an `ExpressionError` at evaluation time. -/
theorem str_arith_amended :
    safe_eval (.vstr "'a' + 'b'") [] = .ok (.vstr "ab")
    ∧ safe_eval (.vstr "'a' * 2") [] = .ok (.vstr "aa")
    ∧ safe_eval (.vstr "'a' + 1") []
      = .error "Evaluation error: TypeError: unsupported operand type(s) for +" :=
  ⟨rfl, rfl, rfl⟩

/-- C7: the string-to-value coercion applied to snapshot values before
expression evaluation follows the total ordered rule set: a trimmed,
lowercased `"true"`/`"false"` becomes a boolean; else a string containing
`.` becomes a number via a float parse on success; else an integer parse on
success yields a number; else the value stays a string — and in particular
`"1e3"` matches neither numeric path and stays a string. -/
theorem coerce_string_rules :
    (∀ s : String, strLower (strTrim s) = "true" → coerceVal (.vstr s) = .vbool true)
    ∧ (∀ s : String, strLower (strTrim s) = "false" → coerceVal (.vstr s) = .vbool false)
    ∧ (∀ s : String, ¬ (strLower (strTrim s) = "true") → ¬ (strLower (strTrim s) = "false") →
        strHasChar s '.' = true →
        (∀ q, pyFloatParse s = some q → coerceVal (.vstr s) = .vfloat q)
        ∧ (pyFloatParse s = none → coerceVal (.vstr s) = .vstr s))
    ∧ (∀ s : String, ¬ (strLower (strTrim s) = "true") → ¬ (strLower (strTrim s) = "false") →
        strHasChar s '.' = false →
        (∀ n, pyIntParse s = some n → coerceVal (.vstr s) = .vint n)
        ∧ (pyIntParse s = none → coerceVal (.vstr s) = .vstr s))
    ∧ coerceVal (.vstr "1e3") = .vstr "1e3" := by
  refine ⟨?_, ?_, ?_, ?_, rfl⟩
  · intro s h
    simp only [coerceVal]
    rw [h, if_pos rfl]
  · intro s h
    simp only [coerceVal]
    rw [h, if_neg (by decide), if_pos rfl]
  · intro s h1 h2 h3
    constructor
    · intro q hq
      simp only [coerceVal]
      rw [if_neg h1, if_neg h2, if_pos h3, hq]
    · intro hq
      simp only [coerceVal]
      rw [if_neg h1, if_neg h2, if_pos h3, hq]
  · intro s h1 h2 h3
    constructor
    · intro n hn
      simp only [coerceVal]
      rw [if_neg h1, if_neg h2, if_neg (by simp [h3]), hn]
    · intro hn
      simp only [coerceVal]
      rw [if_neg h1, if_neg h2, if_neg (by simp [h3]), hn]

/-- Witness for C7: the dotted string `"2.5"` becomes the float 2.5 and the
dotless string `"7"` becomes the int 7 through the stated rules. -/
theorem coerce_string_rules_witness :
    coerceVal (.vstr "2.5") = .vfloat ⟨25, 10⟩
    ∧ coerceVal (.vstr "7") = .vint 7 :=
  ⟨(coerce_string_rules.2.2.1 "2.5" (by decide) (by decide) (by decide)).1 ⟨25, 10⟩ rfl,
   (coerce_string_rules.2.2.2.1 "7" (by decide) (by decide) (by decide)).1 7 rfl⟩

/-- `takeWhile` over a run the predicate accepts, stopped by one rejected
character, returns exactly the run. -/
theorem takeWhile_all_append (p : Char → Bool) (l : List Char) (x : Char) (r : List Char)
    (h1 : ∀ c ∈ l, p c = true) (h2 : p x = false) :
    (l ++ x :: r).takeWhile p = l := by
  induction l with
  | nil => simp [List.takeWhile_cons, h2]
  | cons a as ih =>
    have ha := h1 a (by simp)
    simp [List.takeWhile_cons, ha, ih (fun c hc => h1 c (by simp [hc]))]

/-- One interpolation step on a template that is exactly one
`$\x7bname\x7d` token: the scan matches the token and substitutes its
replacement. -/
theorem interpSub_single_token (f : Nat) (nm : String) (snap : Snap)
    (h1 : ¬ (nm.data = [])) (h2 : ∀ c ∈ nm.data, isIdentChar c = true) :
    interpSub (f + 1) ('$' :: '\x7b' :: (nm.data ++ ['\x7d'])) snap
      = (tokenRepl nm snap).data := by
  have htw : (nm.data ++ '\x7d' :: []).takeWhile isIdentChar = nm.data :=
    takeWhile_all_append _ _ _ _ h2 (by decide)
  have hie : nm.data.isEmpty = false := by
    cases hh : nm.data with
    | nil => exact absurd hh h1
    | cons a as => rfl
  have hmk : String.mk nm.data = nm := rfl
  simp [interpSub, htw, hie, List.drop_left, hmk]

/-- C9: for every snapshot, `interpolate` replaces a `$\x7bident\x7d` token
whose identifier is missing from the snapshot, or bound to `None`, with the
empty string; it replaces a bound number with its decimal text
(`interpolate("${x}", {x: 5})` is `"5"`); and it returns any non-string
input unchanged (identity, not an error; `interpolate(42, {})` is `42`). -/
theorem interpolate_spec :
    (∀ (t : PyTerm) (snap : Snap), (∀ s, ¬ (t = .vstr s)) → interpolate t snap = t)
    ∧ (∀ (nm : String) (snap : Snap), ¬ (nm.data = []) →
        (∀ c ∈ nm.data, isIdentChar c = true) →
        (snapGet snap nm = none ∨ snapGet snap nm = some .vnone) →
        interpolate (.vstr ("$\x7b" ++ nm ++ "\x7d")) snap = .vstr "")
    ∧ interpolate (.vstr "${x}") [("x", .vint 5)] = .vstr "5"
    ∧ interpolate (.vstr "${missing}") [] = .vstr "" := by
  refine ⟨?_, ?_, rfl, rfl⟩
  · intro t snap h
    cases t with
    | vstr s => exact absurd rfl (h s)
    | vint n => rfl
    | vfloat q => rfl
    | vbool b => rfl
    | vnone => rfl
    | vlist xs => rfl
    | vdict es => rfl
  · intro nm snap h1 h2 h3
    have hdata : ("$\x7b" ++ nm ++ "\x7d").data = '$' :: '\x7b' :: (nm.data ++ ['\x7d']) := by
      have e1 : ∀ a b : String, (a ++ b).data = a.data ++ b.data := fun a b => rfl
      rw [e1, e1]
      simp
    show PyTerm.vstr (String.mk (interpSub (("$\x7b" ++ nm ++ "\x7d").data.length + 1)
        ("$\x7b" ++ nm ++ "\x7d").data snap)) = .vstr ""
    rw [hdata, interpSub_single_token _ nm snap h1 h2]
    rcases h3 with h | h <;> simp [tokenRepl, h]

/-- Witness for C9: non-string identity at `42`, and the token `$\x7by\x7d`
against a snapshot without `y` interpolates to the empty string. -/
theorem interpolate_spec_witness :
    interpolate (.vint 42) [] = .vint 42
    ∧ interpolate (.vstr "${y}") [("z", .vint 1)] = .vstr "" :=
  ⟨interpolate_spec.1 (.vint 42) [] (fun s h => PyTerm.noConfusion h),
   interpolate_spec.2.1 "y" [("z", .vint 1)] (by decide)
     (by intro c hc; simp at hc; rw [hc]; rfl) (Or.inl rfl)⟩

/-- Coercion preserves the snapshot's key set: a name absent from the
snapshot is absent from `safe_locals`. -/
theorem safeLocals_get_none (vars : Snap) (nm : String) (h : snapGet vars nm = none) :
    snapGet (safeLocals vars) nm = none := by
  induction vars with
  | nil => rfl
  | cons p rest ih =>
    obtain ⟨k, v⟩ := p
    by_cases hk : k = nm
    · exfalso
      rw [show snapGet ((k, v) :: rest) nm = some v from by simp [snapGet, hk]] at h
      exact Option.noConfusion h
    · have h' : snapGet rest nm = none := by simpa [snapGet, hk] using h
      simpa [safeLocals, snapGet, hk] using ih h'

/-- Counterexample to C10: the identifier `__builtins__` is a key of the
globals dict `\x7b"__builtins__": None\x7d` that `eval` runs under, so with
an empty snapshot `evaluate("__builtins__", {})` returns `None` instead of
raising. -/
theorem builtins_identifier_resolves :
    safe_eval (.vstr "__builtins__") [] = .ok .vnone := rfl

/-- C10 (amended): for every snapshot, evaluating an expression that is a
single identifier other than the literal name `__builtins__`, when that
identifier is not a key of the snapshot, fails with an `ExpressionError`
wrapping the `NameError` — the missing name gets no default value, because
evaluation runs with only the resolved identifier bindings and a globals
dict whose sole key is `__builtins__` (bound to `None`). -/
theorem missing_identifier_raises (s nm : String) (vars : Snap)
    (hp : pyParse (strTrim s) = some (.name nm)) (hb : ¬ (nm = "__builtins__"))
    (hm : snapGet vars nm = none) :
    safe_eval (.vstr s) vars
      = .error ("Evaluation error: " ++ ("NameError: name " ++ nm ++ " is not defined")) := by
  have hne : ¬ (strTrim s = "") := by
    intro h0
    rw [h0] at hp
    exact Option.noConfusion hp
  rw [safe_eval_of_parse s (.name nm) vars hne hp]
  have hsl := safeLocals_get_none vars nm hm
  simp [checkNodeE, evalAst, hsl, hb]

/-- Witness for C10 (amended) at `evaluate("y", {})`. -/
theorem missing_identifier_raises_witness :
    safe_eval (.vstr "y") []
      = .error ("Evaluation error: " ++ ("NameError: name " ++ "y" ++ " is not defined")) :=
  missing_identifier_raises "y" "y" [] rfl (by decide) rfl

example : execute_action
    (.vdict (.cons "type" (.vstr "if")
      (.cons "condition" (.vstr "${n} > 0")
        (.cons "then" (.vdict (.cons "type" (.vstr "set")
            (.cons "var" (.vstr "n") (.cons "value" (.vstr "-1") .nil))))
          (.cons "else" (.vdict (.cons "type" (.vstr "set")
            (.cons "var" (.vstr "n") (.cons "value" (.vstr "1") .nil))))
            .nil)))))
    ⟨true, true, true, true, some [("n", .vfloat (.ofInt (-5)))]⟩
    = .ok [.set_var (.vstr "n") (.vstr "1")] := rfl
